import Mathlib

/-!
Verification development for the easter-bush-energy repository.

The Python sources under `src/easter_bush_energy/` are shallowly embedded:
timestamps become integers (minutes), pandas series become association
lists from timestamp to optional rational (with `none` modelling NaN),
the pyomo constraint sets registered by the `extra_functionality`
closures become predicates over an explicit assignment of the LOPF
decision variables, and the `DataGetter` class becomes a record with
explicit state passing.
-/

namespace EasterBush

/-! ## Time series primitives (pandas operations used by datagetter.py) -/

/-- A pandas time series: (timestamp in minutes, value); `none` models NaN. -/
abbrev Series := List (ℤ × Option ℚ)

/-- Values of a series with NaN entries dropped (pandas `skipna` semantics). -/
def someVals (s : Series) : List ℚ := s.filterMap (fun p => p.2)

/-- Mean of a list of rationals; `none` on the empty list (NaN). -/
def meanOpt (l : List ℚ) : Option ℚ :=
  if l.length = 0 then none else some (l.sum / l.length)

/-- `pandas.Series.mean()`: skips NaN, NaN if nothing remains. -/
def seriesMean (s : Series) : Option ℚ := meanOpt (someVals s)

/-- Index of the resampling bin containing time `t` for frequency `f`. -/
def binIdx (f t : ℤ) : ℤ := Int.ediv t f

/-- All values of `s` falling into bin `k` (NaN dropped, as `mean` does). -/
def bucket (f k : ℤ) (s : Series) : List ℚ :=
  s.filterMap (fun p => if binIdx f p.1 = k then p.2 else none)

/-- The contiguous range of bin indices spanned by the series. -/
def binList (f : ℤ) (s : Series) : List ℤ :=
  match s with
  | [] => []
  | p :: rest =>
    let ks := (p :: rest).map (fun q => binIdx f q.1)
    let klo := ks.foldl min (binIdx f p.1)
    let khi := ks.foldl max (binIdx f p.1)
    (List.range (khi - klo + 1).toNat).map (fun i => klo + (i : ℤ))

/-- `series.resample(f).mean()`: bin labels are multiples of `f`,
bin value is the mean of the non-NaN members, NaN for empty bins. -/
def resampleMean (f : ℤ) (s : Series) : Series :=
  (binList f s).map (fun k => (k * f, meanOpt (bucket f k s)))

/-- `series.loc[a:b]`: restriction to the closed interval. -/
def locSlice (a b : ℤ) (s : Series) : Series :=
  s.filter (fun p => decide (a ≤ p.1) && decide (p.1 ≤ b))

/-- Latest observation at or before `t` (basis of forward filling). -/
def lastAtOrBefore (s : Series) (t : ℤ) : Option (ℤ × Option ℚ) :=
  s.foldl (fun acc p =>
    if p.1 ≤ t then
      match acc with
      | none => some p
      | some q => if q.1 ≤ p.1 then some p else some q
    else acc) none

/-- `series.resample(f).ffill()`: bin labels are multiples of `f`,
each label carries the latest original observation at or before it. -/
def resampleFfill (f : ℤ) (s : Series) : Series :=
  (binList f s).map (fun k =>
    (k * f,
      match lastAtOrBefore s (k * f) with
      | some q => q.2
      | none => none))

/-- Consecutive differences of a list of timestamps. -/
def diffsOf : List ℤ → List ℤ
  | a :: b :: rest => (b - a) :: diffsOf (b :: rest)
  | _ => []

/-- `pandas.infer_freq`: needs at least three timestamps, and succeeds
exactly when all consecutive differences agree. -/
def inferFreq (snaps : List ℤ) : Option ℤ :=
  if snaps.length < 3 then none
  else
    match diffsOf snaps with
    | [] => none
    | d :: ds => if ds.all (fun x => decide (x = d)) then some d else none

/-- `pandas.date_range(a, b, freq=f)` with minute timestamps. -/
def dateRange (a b f : ℤ) : List ℤ :=
  if f ≤ 0 then []
  else (List.range (Int.ediv (b - a) f + 1).toNat).map (fun i => a + (i : ℤ) * f)

/-- Floor of a rational, computed from numerator and denominator. -/
def ratFloor (q : ℚ) : ℤ := Int.ediv q.num q.den

/-- Python `round`: nearest integer, ties to even. -/
def pyRound (q : ℚ) : ℤ :=
  let n := ratFloor q
  let r := q - n
  if r < 1/2 then n
  else if 1/2 < r then n + 1
  else if 2 ∣ n then n else n + 1

/-! ## Network model: links and LOPF decision variables

`build_network.py` stores its links in `network.links` (a dataframe with
an `efficiency` and a `p_nom` column); the pyomo model exposes variables
`link_p[name, snapshot]` and `link_p_nom[name]`. -/

inductive LinkName
  | chp2heat
  | chp2elec
  | boiler
  | elecmarket2elecload
  | store2heatload
  | heatpump2store
  | heatpump2load
  | heatpump2stes
  | stes2store
  deriving DecidableEq

structure LinkRow where
  efficiency : ℚ
  p_nom : ℚ
  deriving DecidableEq

/-- The `network.links` table, keyed by link name. -/
abbrev Links := LinkName → LinkRow

def updateLink (L : Links) (n : LinkName) (r : LinkRow) : Links :=
  fun m => if m = n then r else L m

/-- An assignment of the pyomo LOPF decision variables. -/
structure LModel where
  link_p : LinkName → ℤ → ℚ
  link_p_nom : LinkName → ℚ

/-! ### add_chp (build_network.py lines 112-175) -/

/-- `nom_r = 1.`: ratio max heat vs max elec output. -/
def nom_r : ℚ := 1

/-- `c_m = 0.75`: backpressure limit. -/
def c_m : ℚ := 75/100

/-- `c_v = 0.15`: marginal loss for each generation of heat. -/
def c_v : ℚ := 15/100

/-- Effect of `add_chp` on the links table: `chp2heat` is added with
efficiency 0.9, `chp2elec` with efficiency 0.468, and then the
`chp2heat` efficiency is overwritten with `chp2elec` efficiency / c_v
(build_network.py lines 134-139).  Extendable links keep `p_nom = 0`. -/
def addChpLinks (L : Links) : Links :=
  let L1 := updateLink L LinkName.chp2heat ⟨9/10, 0⟩
  let L2 := updateLink L1 LinkName.chp2elec ⟨468/1000, 0⟩
  updateLink L2 LinkName.chp2heat
    ⟨(L2 LinkName.chp2elec).efficiency / c_v, (L2 LinkName.chp2heat).p_nom⟩

/-- The `chp_nom` constraint (build_network.py lines 144-149). -/
def chp_nom (net : Links) (m : LModel) : Prop :=
  (net LinkName.chp2elec).efficiency * nom_r * m.link_p_nom LinkName.chp2elec
    = (net LinkName.chp2heat).efficiency * m.link_p_nom LinkName.chp2heat

/-- The `backpressure` constraint (build_network.py lines 152-159). -/
def backpressure (net : Links) (m : LModel) (s : ℤ) : Prop :=
  c_m * (net LinkName.chp2heat).efficiency * m.link_p LinkName.chp2heat s
    ≤ (net LinkName.chp2elec).efficiency * m.link_p LinkName.chp2elec s

/-- The `top_iso_fuel_line` constraint exactly as written in the code
(build_network.py lines 164-168): note the coefficient of the heat term
is 1, not `c_v`. -/
def top_iso_fuel_line (m : LModel) (s : ℤ) : Prop :=
  m.link_p LinkName.chp2heat s + m.link_p LinkName.chp2elec s
    ≤ m.link_p_nom LinkName.chp2elec

/-- The constraint set registered by the closure returned from `add_chp`:
`chp_nom` once, `backpressure` and `top_iso_fuel_line` per snapshot. -/
def chpExtraFunctionality (net : Links) (snapshots : List ℤ) (m : LModel) : Prop :=
  chp_nom net m
    ∧ (∀ s ∈ snapshots, backpressure net m s)
    ∧ (∀ s ∈ snapshots, top_iso_fuel_line m s)

/-! ### Heat-pump power-split constraints (build_network.py lines 206-216, 275-285) -/

/-- The `heatpump_func` constraint from `add_small_storage_and_heat_pump`. -/
def heatpump_func (net : Links) (m : LModel) (s : ℤ) : Prop :=
  m.link_p LinkName.heatpump2store s + m.link_p LinkName.heatpump2load s
    ≤ (net LinkName.heatpump2store).p_nom

/-- The `stes_heatpump_func` constraint from `add_seasonal_storage_and_heat_pump`. -/
def stes_heatpump_func (net : Links) (m : LModel) (s : ℤ) : Prop :=
  m.link_p LinkName.heatpump2store s + m.link_p LinkName.heatpump2load s
      + m.link_p LinkName.heatpump2stes s
    ≤ (net LinkName.heatpump2store).p_nom

/-- Constraint set registered by the closure from `add_small_storage_and_heat_pump`. -/
def smallStorageExtraFunctionality (net : Links) (snapshots : List ℤ) (m : LModel) : Prop :=
  ∀ s ∈ snapshots, heatpump_func net m s

/-- Constraint set registered by the closure from `add_seasonal_storage_and_heat_pump`. -/
def stesExtraFunctionality (net : Links) (snapshots : List ℤ) (m : LModel) : Prop :=
  ∀ s ∈ snapshots, stes_heatpump_func net m s

/-! ### Concrete instances used as witnesses -/

def defaultLinks : Links := fun _ => ⟨1, 0⟩

def netEx : Links := addChpLinks defaultLinks

def mZero : LModel := ⟨fun _ _ => 0, fun _ => 0⟩

def mEx : LModel :=
  ⟨fun n _ => if n = LinkName.chp2heat then 1 else 0, fun _ => 1/2⟩

/-! ## Claims C1-C4 -/

/-- C1: for every snapshot passed to the LOPF, the extra functionality
returned by `add_chp` imposes the backpressure inequality
`c_m * efficiency(chp2heat) * link_p(chp2heat, s) ≤
 efficiency(chp2elec) * link_p(chp2elec, s)` with `c_m = 0.75`. -/
theorem chp_backpressure_claim (net : Links) (snaps : List ℤ) (m : LModel)
    (s : ℤ) (hs : s ∈ snaps) (h : chpExtraFunctionality net snaps m) :
    c_m * (net LinkName.chp2heat).efficiency * m.link_p LinkName.chp2heat s
        ≤ (net LinkName.chp2elec).efficiency * m.link_p LinkName.chp2elec s
      ∧ c_m = 75/100 :=
  ⟨h.2.1 s hs, rfl⟩

theorem chp_backpressure_claim_witness :
    c_m * (netEx LinkName.chp2heat).efficiency * mZero.link_p LinkName.chp2heat 0
        ≤ (netEx LinkName.chp2elec).efficiency * mZero.link_p LinkName.chp2elec 0
      ∧ c_m = 75/100 :=
  chp_backpressure_claim netEx [0] mZero 0 (by simp)
    (by
      refine ⟨?_, ?_, ?_⟩
      · simp [chp_nom, mZero]
      · intro s _
        simp [backpressure, mZero]
      · intro s _
        simp [top_iso_fuel_line, mZero])

/-- C2: the claim states the standard top-iso-fuel-line inequality
`link_p(chp2elec, s) + c_v * link_p(chp2heat, s) ≤ link_p_nom(chp2elec)`
(which is also what the source comment at build_network.py line 163
promises), but the code at lines 164-168 imposes
`link_p(chp2heat, s) + link_p(chp2elec, s) ≤ link_p_nom(chp2elec)`,
with coefficient 1 instead of `c_v` on the heat term.  At the concrete
assignment `mEx` (heat flow 1, electric flow 0, nominal power 1/2) the
coded constraint is violated while the claimed inequality holds. -/
theorem top_iso_fuel_line_missing_cv :
    ¬ top_iso_fuel_line mEx 0
      ∧ mEx.link_p LinkName.chp2elec 0 + c_v * mEx.link_p LinkName.chp2heat 0
          ≤ mEx.link_p_nom LinkName.chp2elec := by
  have hne : LinkName.chp2elec ≠ LinkName.chp2heat := by intro h; cases h
  constructor
  · rw [top_iso_fuel_line]
    simp only [mEx, if_pos rfl, if_neg hne]
    norm_num
  · simp only [mEx, c_v, if_pos rfl, if_neg hne]
    norm_num

/-- C3: `add_chp` overwrites the `chp2heat` efficiency to
`efficiency(chp2elec) / c_v = 0.468 / 0.15`, and its extra functionality
imposes the single proportionality equality
`efficiency(chp2elec) * nom_r * link_p_nom(chp2elec)
  = efficiency(chp2heat) * link_p_nom(chp2heat)` with `nom_r = 1`;
consequently the nominal heat capacity is proportional (factor `c_v`)
to the nominal electric capacity. -/
theorem chp_efficiency_and_proportionality (L : Links) (snaps : List ℤ)
    (m : LModel) (h : chpExtraFunctionality (addChpLinks L) snaps m) :
    (addChpLinks L LinkName.chp2heat).efficiency = (468/1000) / (15/100)
      ∧ (468/1000) * nom_r * m.link_p_nom LinkName.chp2elec
          = ((468/1000) / (15/100)) * m.link_p_nom LinkName.chp2heat
      ∧ nom_r = 1
      ∧ m.link_p_nom LinkName.chp2heat = (15/100) * m.link_p_nom LinkName.chp2elec := by
  have heff : (addChpLinks L LinkName.chp2heat).efficiency = (468/1000) / (15/100) := by
    simp [addChpLinks, updateLink, c_v]
  have heffe : (addChpLinks L LinkName.chp2elec).efficiency = 468/1000 := by
    simp [addChpLinks, updateLink]
  have hnom := h.1
  rw [chp_nom, heff, heffe] at hnom
  refine ⟨heff, hnom, rfl, ?_⟩
  rw [nom_r] at hnom
  nlinarith [hnom]

theorem chp_efficiency_and_proportionality_witness :
    (addChpLinks defaultLinks LinkName.chp2heat).efficiency = (468/1000) / (15/100)
      ∧ (468/1000) * nom_r * mZero.link_p_nom LinkName.chp2elec
          = ((468/1000) / (15/100)) * mZero.link_p_nom LinkName.chp2heat
      ∧ nom_r = 1
      ∧ mZero.link_p_nom LinkName.chp2heat = (15/100) * mZero.link_p_nom LinkName.chp2elec :=
  chp_efficiency_and_proportionality defaultLinks [] mZero
    (by
      refine ⟨?_, ?_, ?_⟩
      · simp [chp_nom, mZero]
      · intro s hs
        simp at hs
      · intro s hs
        simp at hs)

/-- C4: for every snapshot, the extra functionality returned by
`add_small_storage_and_heat_pump` imposes
`link_p(heatpump2store, s) + link_p(heatpump2load, s) ≤ p_nom(heatpump2store)`,
and the one returned by `add_seasonal_storage_and_heat_pump` imposes
`link_p(heatpump2store, s) + link_p(heatpump2load, s) + link_p(heatpump2stes, s)
  ≤ p_nom(heatpump2store)`. -/
theorem heatpump_power_split_claim (net : Links) (snaps : List ℤ) (m : LModel)
    (s : ℤ) (hs : s ∈ snaps)
    (h1 : smallStorageExtraFunctionality net snaps m)
    (h2 : stesExtraFunctionality net snaps m) :
    (m.link_p LinkName.heatpump2store s + m.link_p LinkName.heatpump2load s
        ≤ (net LinkName.heatpump2store).p_nom)
      ∧ (m.link_p LinkName.heatpump2store s + m.link_p LinkName.heatpump2load s
            + m.link_p LinkName.heatpump2stes s
          ≤ (net LinkName.heatpump2store).p_nom) :=
  ⟨h1 s hs, h2 s hs⟩

theorem heatpump_power_split_claim_witness :
    (mZero.link_p LinkName.heatpump2store 0 + mZero.link_p LinkName.heatpump2load 0
        ≤ (netEx LinkName.heatpump2store).p_nom)
      ∧ (mZero.link_p LinkName.heatpump2store 0 + mZero.link_p LinkName.heatpump2load 0
            + mZero.link_p LinkName.heatpump2stes 0
          ≤ (netEx LinkName.heatpump2store).p_nom) :=
  heatpump_power_split_claim netEx [0] mZero 0 (by simp)
    (by
      intro s _
      simp [heatpump_func, mZero, netEx, addChpLinks, updateLink, defaultLinks])
    (by
      intro s _
      simp [stes_heatpump_func, mZero, netEx, addChpLinks, updateLink, defaultLinks])

/-! ## DataGetter (data/datagetter.py)

File ingestion (`pd.read_csv` / `pd.read_excel` and the Excel reshaping in
`fix_df_shape`) is I/O and is modelled as the raw input series handed to the
getter; everything from the index arithmetic onwards is translated. -/

/-- The six constraint groups of the gridwatch CSV (datagetter.py line 88). -/
inductive Boundary
  | SSESP
  | SCOTEX
  | SSHARN
  | SWALEX
  | SEIMP
  | ESTEX
  deriving DecidableEq

/-- One row of the day-ahead constraints CSV: date, constraint group,
limit (MW) and flow (MW). -/
structure CRow where
  date : ℤ
  group : Boundary
  limit : ℚ
  flow : ℚ
  deriving DecidableEq

/-- Drop duplicated timestamps keeping the first occurrence
(`df_1[~df_1.index.duplicated(keep='first')]`). -/
def dedupFirst : List (ℤ × ℚ × ℚ) → List (ℤ × ℚ × ℚ)
  | [] => []
  | p :: rest => p :: dedupFirst (rest.filter (fun q => decide (q.1 ≠ p.1)))
termination_by l => l.length
decreasing_by
  simp only [List.length_cons]
  have := List.length_filter_le (fun q => decide (q.1 ≠ p.1)) rest
  omega

/-- The (date, limit, flow) series of one constraint group
(datagetter.py lines 93-98). -/
def groupSeries (raw : List CRow) (b : Boundary) : List (ℤ × ℚ × ℚ) :=
  dedupFirst ((raw.filter (fun r => decide (r.group = b))).map
    (fun r => (r.date, r.limit, r.flow)))

/-- Insert into a sorted duplicate-free list of timestamps. -/
def insertSortedDedup (x : ℤ) : List ℤ → List ℤ
  | [] => [x]
  | y :: ys =>
    if x = y then y :: ys
    else if x < y then x :: y :: ys
    else y :: insertSortedDedup x ys

/-- The union index produced by `pd.concat(data, axis=1)` over the six
boundary frames (datagetter.py line 101). -/
def unionIndex (raw : List CRow) : List ℤ :=
  ([Boundary.SSESP, Boundary.SCOTEX, Boundary.SSHARN, Boundary.SWALEX,
    Boundary.SEIMP, Boundary.ESTEX].flatMap
      (fun b => (groupSeries raw b).map (fun p => p.1))).foldr insertSortedDedup []

/-- Reindex a column onto a target index (outer-join alignment): positions
missing from the column become NaN. -/
def reindexCol (idx : List ℤ) (s : Series) : Series :=
  idx.map (fun t =>
    (t, match s.find? (fun p => decide (p.1 = t)) with
        | some p => p.2
        | none => none))

/-- Insert into a sorted list of rationals, keeping duplicates. -/
def insertQ (x : ℚ) : List ℚ → List ℚ
  | [] => [x]
  | y :: ys => if x ≤ y then x :: y :: ys else y :: insertQ x ys

def sortQ (l : List ℚ) : List ℚ := l.foldr insertQ []

/-- `pandas.Series.quantile(q)` with linear interpolation, NaN dropped;
`none` when nothing remains. -/
def quantile (q : ℚ) (s : Series) : Option ℚ :=
  let xs := sortQ (someVals s)
  match xs with
  | [] => none
  | _ :: _ =>
    let n := xs.length
    let pos : ℚ := q * ((n : ℚ) - 1)
    let i := (ratFloor pos).toNat
    let frac := pos - ratFloor pos
    let lo := xs.getD i 0
    let hi := xs.getD (min (i + 1) (n - 1)) 0
    some (lo + (hi - lo) * frac)

/-- numpy elementwise `a > b` where a NaN on either side compares false. -/
def gtNaN : Option ℚ → Option ℚ → Bool
  | some a, some b => decide (b < a)
  | _, _ => false

/-- `np.where(col > q2, q1, col)` (datagetter.py line 117). -/
def whereGT (col : Series) (q2 q1 : Option ℚ) : Series :=
  col.map (fun p => (p.1, if gtNaN p.2 q2 then q1 else p.2))

/-- `series.max()` with NaN skipped. -/
def maxSkipNa (s : Series) : Option ℚ :=
  match someVals s with
  | [] => none
  | x :: xs => some (xs.foldl max x)

/-- `col.values[col > m] = m` (datagetter.py line 120). -/
def clipAbove (s : Series) (m : Option ℚ) : Series :=
  s.map (fun p => (p.1, if gtNaN p.2 m then m else p.2))

/-- `pd.Timedelta(weeks=52)` in minutes. -/
def weeks52 : ℤ := 52 * 7 * 24 * 60

/-- `pd.Timedelta(weeks=52, days=1)` in minutes. -/
def week52day1 : ℤ := weeks52 + 24 * 60

/-- `.loc[snapshots[0]:snapshots[-1]]`; on an empty snapshot list the
source would raise an IndexError, modelled as the identity. -/
def sliceToSnaps (ss : List ℤ) (s : Series) : Series :=
  match ss with
  | [] => s
  | s0 :: _ => locSlice s0 ((ss.getLast?).getD s0) s

/-- The two SCOTEX columns returned by `get_constraint_data`. -/
structure ConstraintResult where
  limit : Series
  flow : Series
  deriving DecidableEq

/-- Body of `get_constraint_data` (datagetter.py lines 85-125).  The
non-SCOTEX boundary columns are dropped again at line 108 and contribute
only their index rows to the union index, so only the SCOTEX columns are
carried. -/
def computeConstraintData (snaps : Option (List ℤ)) (freq : Option ℤ)
    (raw : List CRow) : ConstraintResult :=
  let idx := unionIndex raw
  let sc := groupSeries raw Boundary.SCOTEX
  let limitC := reindexCol idx (sc.map (fun p => (p.1, some p.2.1)))
  let flowC := reindexCol idx (sc.map (fun p => (p.1, some p.2.2)))
  let shiftL := limitC.map (fun p => (p.1 - weeks52, p.2))
  let shiftF := flowC.map (fun p => (p.1 - weeks52, p.2))
  let rl :=
    match snaps, freq with
    | some ss, some f => sliceToSnaps ss (resampleMean f shiftL)
    | _, _ => shiftL
  let rf :=
    match snaps, freq with
    | some ss, some f => sliceToSnaps ss (resampleMean f shiftF)
    | _, _ => shiftF
  let q1 := quantile (50/100) rl
  let q2 := quantile (95/100) rl
  let rl2 := whereGT rl q2 q1
  let mf := maxSkipNa rl2
  let rf2 := clipAbove rf mf
  ⟨rl2, rf2⟩

/-- The raw file contents behind the five data paths of the getter. -/
structure RawData where
  heat : Series
  elec : Series
  eprices : Series
  gas : Series
  constraint : List CRow

/-- The `DataGetter` object: construction arguments plus the five cache
slots initialised to `None` (datagetter.py lines 34-68). -/
structure DataGetter where
  snapshots : Option (List ℤ)
  freq : Option ℤ
  raw : RawData
  df_heat : Option Series
  df_elec : Option Series
  gas_cost : Option Series
  elec_cost : Option Series
  constraint_data : Option ConstraintResult

/-- `DataGetter.__init__`: freq is inferred when snapshots are given. -/
def DataGetter.init (snaps : Option (List ℤ)) (raw : RawData) : DataGetter :=
  { snapshots := snaps
  , freq := match snaps with
            | some s => inferFreq s
            | none => none
  , raw := raw
  , df_heat := none
  , df_elec := none
  , gas_cost := none
  , elec_cost := none
  , constraint_data := none }

/-- Demand computation of `get_demand_data` (datagetter.py lines 174-182);
`self.freq = None` inside the snapshot branch would raise in pandas, so
the branch is guarded on both fields. -/
def computeDemand (g : DataGetter) : Series × Series :=
  match g.snapshots, g.freq with
  | some ss, some f =>
    (sliceToSnaps ss (resampleMean f g.raw.heat),
     sliceToSnaps ss (resampleMean f g.raw.elec))
  | _, _ => (g.raw.heat, g.raw.elec)

/-- `get_demand_data` with its cache guard (datagetter.py lines 141-142,
184-187). -/
def DataGetter.get_demand_data (g : DataGetter) : (Series × Series) × DataGetter :=
  match g.df_heat with
  | some h => ((h, g.df_elec.getD []), g)
  | none =>
    let r := computeDemand g
    (r, { g with df_heat := some r.1, df_elec := some r.2 })

/-- `pd.Series(np.ones(len(s)) * s.mean())`: a fresh integer range index
0,1,...,len-1 carrying the constant mean (datagetter.py line 226). -/
def onesTimesMean (s : Series) : Series :=
  (List.range s.length).map (fun i => ((i : ℤ), seriesMean s))

/-- `gas.index = eprices.index` (datagetter.py line 221): the gas values
are re-keyed positionally by the eprices index. -/
def reindexTo (target s : Series) : Series :=
  List.zipWith (fun (p : ℤ × Option ℚ) (q : ℤ × Option ℚ) => (p.1, q.2)) target s

/-- Market computation of `get_market_data` (datagetter.py lines 202-228). -/
def computeMarket (static_gas_cost : Bool) (g : DataGetter) : Series × Series :=
  let ep0 := g.raw.eprices.map (fun p => (p.1 - week52day1, p.2))
  let eprices :=
    match g.snapshots, g.freq with
    | some ss, some f => sliceToSnaps ss (resampleMean f ep0)
    | _, _ => ep0
  let gas0 := g.raw.gas.reverse
  let gas1 :=
    match g.freq with
    | some f => resampleFfill f gas0
    | none => gas0
  let gas2 :=
    match g.snapshots with
    | some ss => sliceToSnaps ss gas1
    | none => gas1
  let gas3 := reindexTo eprices gas2
  let gasprices := if static_gas_cost then onesTimesMean gas3 else gas3
  (gasprices, eprices)

/-- `get_market_data` with its cache guard (datagetter.py lines 199-200,
230-233). -/
def DataGetter.get_market_data (static_gas_cost : Bool) (g : DataGetter) :
    (Series × Series) × DataGetter :=
  match g.elec_cost with
  | some e => ((g.gas_cost.getD [], e), g)
  | none =>
    let r := computeMarket static_gas_cost g
    (r, { g with gas_cost := some r.1, elec_cost := some r.2 })

/-- `get_constraint_data` with its cache guard (datagetter.py lines 82-83,
124-125). -/
def DataGetter.get_constraint_data (g : DataGetter) : ConstraintResult × DataGetter :=
  match g.constraint_data with
  | some c => (c, g)
  | none =>
    let c := computeConstraintData g.snapshots g.freq g.raw.constraint
    (c, { g with constraint_data := some c })

/-! ### Curtailment availability (build_network.py lines 242-250) -/

/-- numpy elementwise `a < c` where NaN compares false. -/
def ltNaN (x : Option ℚ) (c : ℚ) : Bool :=
  match x with
  | some a => decide (a < c)
  | none => false

/-- Pointwise NaN-propagating subtraction of two aligned series values. -/
def subOpt : Option ℚ → Option ℚ → Option ℚ
  | some a, some b => some (a - b)
  | _, _ => none

/-- `curtail_threshold = 100` (build_network.py line 244). -/
def curtail_threshold : ℚ := 100

/-- `curt = ((limit - flow) < curtail_threshold).astype(float)`: the
`p_max_pu` availability series handed to the `curtailgen` generator in
`add_seasonal_storage_and_heat_pump`. -/
def curtailgen_p_max_pu (c : ConstraintResult) : List (ℤ × ℚ) :=
  List.zipWith (fun (p : ℤ × Option ℚ) (q : ℤ × Option ℚ) =>
    (p.1, if ltNaN (subOpt p.2 q.2) curtail_threshold then (1 : ℚ) else 0))
    c.limit c.flow

/-! ### Index-alignment lemmas -/

/-- Membership in the grid: between the first and last snapshot and on a
multiple of the resampling frequency. -/
abbrev onGrid (s0 sE f : ℤ) (s : Series) : Prop :=
  ∀ p ∈ s, s0 ≤ p.1 ∧ p.1 ≤ sE ∧ f ∣ p.1

lemma mem_locSlice {a b : ℤ} {s : Series} {p : ℤ × Option ℚ}
    (hp : p ∈ locSlice a b s) : p ∈ s ∧ a ≤ p.1 ∧ p.1 ≤ b := by
  simp only [locSlice, List.mem_filter, Bool.and_eq_true, decide_eq_true_eq] at hp
  exact ⟨hp.1, hp.2.1, hp.2.2⟩

lemma mem_resampleMean {f : ℤ} {s : Series} {p : ℤ × Option ℚ}
    (hp : p ∈ resampleMean f s) : f ∣ p.1 := by
  simp only [resampleMean, List.mem_map] at hp
  obtain ⟨k, _, rfl⟩ := hp
  exact ⟨k, mul_comm k f⟩

lemma mem_sliceToSnaps {s0 : ℤ} {rest : List ℤ} {s : Series} {p : ℤ × Option ℚ}
    (hp : p ∈ sliceToSnaps (s0 :: rest) s) :
    p ∈ s ∧ s0 ≤ p.1 ∧ p.1 ≤ (((s0 :: rest).getLast?).getD s0) := by
  rw [sliceToSnaps] at hp
  exact mem_locSlice hp

lemma onGrid_slice_resample (s0 f : ℤ) (rest : List ℤ) (raw : Series) :
    onGrid s0 (((s0 :: rest).getLast?).getD s0) f
      (sliceToSnaps (s0 :: rest) (resampleMean f raw)) := by
  intro p hp
  have h1 := mem_sliceToSnaps hp
  exact ⟨h1.2.1, h1.2.2, mem_resampleMean h1.1⟩

lemma onGrid_of_fst_subset {s0 sE f : ℤ} {t u : Series}
    (ht : onGrid s0 sE f t) (h : ∀ p ∈ u, ∃ q ∈ t, p.1 = q.1) :
    onGrid s0 sE f u := by
  intro p hp
  obtain ⟨q, hq, he⟩ := h p hp
  rw [he]
  exact ht q hq

lemma mem_reindexTo {t s : Series} {p : ℤ × Option ℚ}
    (hp : p ∈ reindexTo t s) : ∃ q ∈ t, p.1 = q.1 := by
  induction t generalizing s with
  | nil => simp [reindexTo] at hp
  | cons a tl ih =>
    cases s with
    | nil => simp [reindexTo] at hp
    | cons b sl =>
      simp only [reindexTo, List.zipWith_cons_cons, List.mem_cons] at hp
      rcases hp with h | h
      · exact ⟨a, List.mem_cons_self a tl, by rw [h]⟩
      · obtain ⟨q, hq, he⟩ := ih (s := sl) h
        exact ⟨q, List.mem_cons_of_mem a hq, he⟩

lemma onGrid_map_value {s0 sE f : ℤ} {t : Series} (g : (ℤ × Option ℚ) → Option ℚ)
    (h : onGrid s0 sE f t) :
    onGrid s0 sE f (t.map (fun p => (p.1, g p))) := by
  intro p hp
  simp only [List.mem_map] at hp
  obtain ⟨q, hq, rfl⟩ := hp
  exact h q hq

/-! ### Unfolding lemmas for the getter methods on a fresh instance -/

lemma get_demand_data_of_none {g : DataGetter} (h : g.df_heat = none) :
    g.get_demand_data = (computeDemand g,
      { g with df_heat := some (computeDemand g).1, df_elec := some (computeDemand g).2 }) := by
  rw [DataGetter.get_demand_data, h]

lemma get_market_data_of_none {g : DataGetter} (b : Bool) (h : g.elec_cost = none) :
    DataGetter.get_market_data b g = (computeMarket b g,
      { g with gas_cost := some (computeMarket b g).1,
               elec_cost := some (computeMarket b g).2 }) := by
  rw [DataGetter.get_market_data, h]

lemma get_constraint_data_of_none {g : DataGetter} (h : g.constraint_data = none) :
    g.get_constraint_data = (computeConstraintData g.snapshots g.freq g.raw.constraint,
      { g with constraint_data := some (computeConstraintData g.snapshots g.freq g.raw.constraint) }) := by
  rw [DataGetter.get_constraint_data, h]

lemma computeDemand_eq {g : DataGetter} {ss : List ℤ} {f : ℤ}
    (h1 : g.snapshots = some ss) (h2 : g.freq = some f) :
    computeDemand g = (sliceToSnaps ss (resampleMean f g.raw.heat),
      sliceToSnaps ss (resampleMean f g.raw.elec)) := by
  rw [computeDemand, h1, h2]

lemma computeMarket_snd_eq {g : DataGetter} {ss : List ℤ} {f : ℤ} (b : Bool)
    (h1 : g.snapshots = some ss) (h2 : g.freq = some f) :
    (computeMarket b g).2 = sliceToSnaps ss
      (resampleMean f (g.raw.eprices.map (fun p => (p.1 - week52day1, p.2)))) := by
  rw [computeMarket, h1, h2]

lemma computeMarket_fst_nonstatic_eq {g : DataGetter} {ss : List ℤ} {f : ℤ}
    (h1 : g.snapshots = some ss) (h2 : g.freq = some f) :
    (computeMarket false g).1 = reindexTo
      (sliceToSnaps ss (resampleMean f (g.raw.eprices.map (fun p => (p.1 - week52day1, p.2)))))
      (sliceToSnaps ss (resampleFfill f g.raw.gas.reverse)) := by
  rw [computeMarket, h1, h2]
  rfl

lemma computeConstraintData_limit_eq (ss : List ℤ) (f : ℤ) (raw : List CRow) :
    ∃ q2 q1, (computeConstraintData (some ss) (some f) raw).limit =
      whereGT (sliceToSnaps ss (resampleMean f
        ((reindexCol (unionIndex raw)
          ((groupSeries raw Boundary.SCOTEX).map (fun p => (p.1, some p.2.1)))).map
            (fun p => (p.1 - weeks52, p.2))))) q2 q1 := by
  exact ⟨_, _, rfl⟩

lemma computeConstraintData_flow_eq (ss : List ℤ) (f : ℤ) (raw : List CRow) :
    ∃ m, (computeConstraintData (some ss) (some f) raw).flow =
      clipAbove (sliceToSnaps ss (resampleMean f
        ((reindexCol (unionIndex raw)
          ((groupSeries raw Boundary.SCOTEX).map (fun p => (p.1, some p.2.2)))).map
            (fun p => (p.1 - weeks52, p.2))))) m := by
  exact ⟨_, rfl⟩

/-! ## Claim C5 -/

/-- C5 counterexample data: snapshots every 30 minutes from minute 60 to
minute 120, one electricity price reading, one gas price reading, one
heat and one electricity meter reading, one SCOTEX constraint row. -/
def rawEx : RawData :=
  { heat := [(60, some 2)]
  , elec := [(90, some 3)]
  , eprices := [(525660, some 1)]
  , gas := [(60, some 5)]
  , constraint := [⟨524220, Boundary.SCOTEX, 150, 100⟩] }

def gEx : DataGetter := DataGetter.init (some [60, 90, 120]) rawEx

/-- C5 counterexample: the claim states that `get_market_data` returns
series restricted to the closed interval `[snapshots[0], snapshots[-1]]`,
but with the default `static_gas_cost=True` the returned gas series is
`pd.Series(np.ones(n) * mean)`: it carries a fresh integer range index
(here `[0]`), which lies outside the snapshot interval `[60, 120]`. -/
theorem market_static_gas_index_counterexample :
    gEx.snapshots = some [60, 90, 120]
      ∧ (DataGetter.get_market_data true gEx).1.1 = [((0 : ℤ), some (5 : ℚ))]
      ∧ ¬ ((60 : ℤ) ≤ 0) := by
  refine ⟨rfl, ?_, by decide⟩
  have key : (DataGetter.get_market_data true gEx).1.1
      = onesTimesMean [((60 : ℤ), some (5 : ℚ))] := rfl
  rw [key]
  norm_num [onesTimesMean, seriesMean, meanOpt, someVals,
    List.flatMap_cons, List.flatMap_nil, List.filterMap_cons, List.filterMap_nil]
  decide

/-- C5 amended: for a getter built over non-None snapshots with an
inferable frequency `f`, the heat and electricity demand series, the
electricity price series (for either value of `static_gas_cost`), the
gas price series when `static_gas_cost=False`, and both SCOTEX
constraint columns are restricted to the closed snapshot interval and
indexed on multiples of `f`; the gas series with the default
`static_gas_cost=True` is excluded (see the counterexample). -/
theorem datagetter_time_alignment (s0 : ℤ) (rest : List ℤ) (f : ℤ) (raw : RawData)
    (hf : inferFreq (s0 :: rest) = some f) :
    onGrid s0 (((s0 :: rest).getLast?).getD s0) f
        ((DataGetter.init (some (s0 :: rest)) raw).get_demand_data).1.1
      ∧ onGrid s0 (((s0 :: rest).getLast?).getD s0) f
          ((DataGetter.init (some (s0 :: rest)) raw).get_demand_data).1.2
      ∧ (∀ b, onGrid s0 (((s0 :: rest).getLast?).getD s0) f
          ((DataGetter.get_market_data b (DataGetter.init (some (s0 :: rest)) raw)).1.2))
      ∧ onGrid s0 (((s0 :: rest).getLast?).getD s0) f
          ((DataGetter.get_market_data false (DataGetter.init (some (s0 :: rest)) raw)).1.1)
      ∧ onGrid s0 (((s0 :: rest).getLast?).getD s0) f
          ((DataGetter.init (some (s0 :: rest)) raw).get_constraint_data).1.limit
      ∧ onGrid s0 (((s0 :: rest).getLast?).getD s0) f
          ((DataGetter.init (some (s0 :: rest)) raw).get_constraint_data).1.flow := by
  set g := DataGetter.init (some (s0 :: rest)) raw with hg
  have hsnap : g.snapshots = some (s0 :: rest) := rfl
  have hfreq : g.freq = some f := by
    rw [hg]
    simp only [DataGetter.init]
    exact hf
  have hdem : g.get_demand_data.1 = (sliceToSnaps (s0 :: rest) (resampleMean f g.raw.heat),
      sliceToSnaps (s0 :: rest) (resampleMean f g.raw.elec)) := by
    rw [get_demand_data_of_none rfl, computeDemand_eq hsnap hfreq]
  have hmar : ∀ b, (DataGetter.get_market_data b g).1 = computeMarket b g := by
    intro b
    rw [get_market_data_of_none b rfl]
  have hcon : g.get_constraint_data.1
      = computeConstraintData (some (s0 :: rest)) (some f) g.raw.constraint := by
    rw [get_constraint_data_of_none rfl, hsnap, hfreq]
  refine ⟨?_, ?_, ?_, ?_, ?_, ?_⟩
  · rw [hdem]
    exact onGrid_slice_resample s0 f rest g.raw.heat
  · rw [hdem]
    exact onGrid_slice_resample s0 f rest g.raw.elec
  · intro b
    rw [hmar b, computeMarket_snd_eq b hsnap hfreq]
    exact onGrid_slice_resample s0 f rest _
  · rw [hmar false, computeMarket_fst_nonstatic_eq hsnap hfreq]
    exact onGrid_of_fst_subset (onGrid_slice_resample s0 f rest _)
      (fun p hp => mem_reindexTo hp)
  · rw [hcon]
    obtain ⟨q2, q1, he⟩ := computeConstraintData_limit_eq (s0 :: rest) f g.raw.constraint
    rw [he, whereGT]
    exact onGrid_map_value _ (onGrid_slice_resample s0 f rest _)
  · rw [hcon]
    obtain ⟨m, he⟩ := computeConstraintData_flow_eq (s0 :: rest) f g.raw.constraint
    rw [he, clipAbove]
    exact onGrid_map_value _ (onGrid_slice_resample s0 f rest _)

theorem datagetter_time_alignment_witness :
    (60 : ℤ) ≤ 60 ∧ (60 : ℤ) ≤ 120 ∧ (30 : ℤ) ∣ 60 :=
  (datagetter_time_alignment 60 [90, 120] 30 rawEx (by decide)).1
    (60, some 2)
    (by
      have key : ((DataGetter.init (some [60, 90, 120]) rawEx).get_demand_data).1.1
          = [((60 : ℤ), meanOpt [(2 : ℚ)])] := rfl
      rw [key]
      norm_num [meanOpt])

/-! ## Claim C6 -/

lemma zipWith_getD {α β γ : Type} (f : α → β → γ) :
    ∀ (a : List α) (b : List β) (i : Nat), i < (List.zipWith f a b).length →
      ∀ (da : α) (db : β) (dc : γ),
        (List.zipWith f a b).getD i dc = f (a.getD i da) (b.getD i db) := by
  intro a
  induction a with
  | nil =>
    intro b i h
    simp at h
  | cons x xs ih =>
    intro b i h da db dc
    cases b with
    | nil => simp at h
    | cons y ys =>
      cases i with
      | zero => simp
      | succ n =>
        simp only [List.zipWith_cons_cons, List.length_cons, List.getD_cons_succ] at h ⊢
        exact ih ys n (by omega) da db dc

/-- C6: the `p_max_pu` availability of the `curtailgen` generator is 1
exactly at positions where the SCOTEX Limit minus Flow of the constraint
data is defined and strictly below the 100 MW curtailment threshold, and
0 at every other position. -/
theorem stes_curtailment_availability (c : ConstraintResult) (i : Nat)
    (hi : i < (curtailgen_p_max_pu c).length) :
    (((curtailgen_p_max_pu c).getD i (0, 0)).2 = 1 ↔
        ∃ l fl, (c.limit.getD i (0, none)).2 = some l
          ∧ (c.flow.getD i (0, none)).2 = some fl ∧ l - fl < curtail_threshold)
      ∧ (((curtailgen_p_max_pu c).getD i (0, 0)).2 = 1
          ∨ ((curtailgen_p_max_pu c).getD i (0, 0)).2 = 0) := by
  rw [curtailgen_p_max_pu] at hi ⊢
  rw [zipWith_getD _ c.limit c.flow i hi (0, none) (0, none) (0, 0)]
  cases hL : (c.limit.getD i (0, none)).2 with
  | none => simp [subOpt, ltNaN]
  | some l =>
    cases hF : (c.flow.getD i (0, none)).2 with
    | none => simp [subOpt, ltNaN]
    | some fl =>
      simp only [subOpt, ltNaN]
      by_cases h : l - fl < curtail_threshold
      · simp [h]
      · simp [h]

def cEx : ConstraintResult := ⟨[(60, some 150)], [(60, some 100)]⟩

theorem stes_curtailment_availability_witness :
    ((curtailgen_p_max_pu cEx).getD 0 (0, 0)).2 = 1 :=
  (stes_curtailment_availability cEx 0 (by decide)).1.mpr
    ⟨150, 100, by decide, by decide, by norm_num [curtail_threshold]⟩

/-! ## Claim C10 -/

/-- C10: each getter method computes at most once; any call after the
first returns the pair cached by the first call and leaves the getter
unchanged, and the `static_gas_cost` argument of `get_market_data` has
no effect on calls made after the first one. -/
theorem datagetter_caching (g : DataGetter) (b1 b2 : Bool) :
    DataGetter.get_demand_data (DataGetter.get_demand_data g).2
        = DataGetter.get_demand_data g
      ∧ DataGetter.get_constraint_data (DataGetter.get_constraint_data g).2
          = DataGetter.get_constraint_data g
      ∧ DataGetter.get_market_data b2 (DataGetter.get_market_data b1 g).2
          = DataGetter.get_market_data b1 g := by
  refine ⟨?_, ?_, ?_⟩
  · cases h : g.df_heat with
    | some x => simp [DataGetter.get_demand_data, h]
    | none => simp [DataGetter.get_demand_data, h]
  · cases h : g.constraint_data with
    | some x => simp [DataGetter.get_constraint_data, h]
    | none => simp [DataGetter.get_constraint_data, h]
  · cases h : g.elec_cost with
    | some x => simp [DataGetter.get_market_data, h]
    | none => simp [DataGetter.get_market_data, h]

/-! ## analyse (visualization/analysis.py)

The summary numbers computed after the solver ran.  A solved network is
modelled by the dataframes `analyse` reads: the buses table with its
`carrier` and `generator` columns (a missing `generator` cell is NaN,
modelled as `none`), the `generators_t.p` columns, and the
`generators_t.marginal_cost` columns (absent for generators with static
marginal cost, which is what the `except KeyError: continue` skips). -/

inductive GenName
  | elecmarket
  | gasmarket_boiler
  | gasmarket_chp
  | curtailgen
  deriving DecidableEq

inductive Carrier
  | elec
  | gas
  | heat
  deriving DecidableEq

structure ABus where
  carrier : Carrier
  generator : Option GenName
  deriving DecidableEq

structure SolvedNetwork where
  buses : List ABus
  gen_cols : List GenName
  gen_p : GenName → List ℚ
  gen_mc : GenName → Option (List ℚ)

/-- The `costs` frame (analysis.py lines 17-24): one column per generator
whose marginal-cost column exists, holding power times marginal cost. -/
def costsCols (n : SolvedNetwork) : List (GenName × List ℚ) :=
  n.gen_cols.filterMap (fun g =>
    match n.gen_mc g with
    | some mc => some (g, List.zipWith (fun a b => a * b) (n.gen_p g) mc)
    | none => none)

/-- `costs.sum().sum()`. -/
def costsTotal (n : SolvedNetwork) : ℚ :=
  ((costsCols n).map (fun p => p.2.sum)).sum

/-- `gas_gen_index` (analysis.py line 86): generators of gas-carrier
buses; a NaN generator cell would raise a KeyError downstream, so the
claim theorem assumes gas buses carry a generator. -/
def gas_gen_index (n : SolvedNetwork) : List GenName :=
  (n.buses.filter (fun b => decide (b.carrier = Carrier.gas))).filterMap
    (fun b => b.generator)

/-- `gas_gen.sum().sum()` (analysis.py lines 87-89). -/
def gasGenTotal (n : SolvedNetwork) : ℚ :=
  ((gas_gen_index n).map (fun g => (n.gen_p g).sum)).sum

/-- `elec_gen` (analysis.py lines 91-93): elec-carrier bus rows with the
NaN rows dropped, then their generators. -/
def elec_gen_index (n : SolvedNetwork) : List GenName :=
  ((n.buses.filter (fun b => decide (b.carrier = Carrier.elec))).filter
    (fun b => b.generator.isSome)).filterMap (fun b => b.generator)

def elecGenTotal (n : SolvedNetwork) : ℚ :=
  ((elec_gen_index n).map (fun g => (n.gen_p g).sum)).sum

/-- The summary entries of the `result_dict` (analysis.py lines 105-112). -/
structure AnalyseResult where
  gas_used : ℤ
  elec_used : ℤ
  gas_emission : ℤ
  elec_emission : ℤ
  operating_cost : ℤ
  deriving DecidableEq

/-- The summary computation of `analyse` (analysis.py lines 85-112).
`round(gas_emission)` on the already-rounded integer equals itself. -/
def analyse (n : SolvedNetwork) : AnalyseResult :=
  { gas_used := pyRound (gasGenTotal n)
  , elec_used := pyRound (elecGenTotal n)
  , gas_emission := pyRound (gasGenTotal n * (184/1000))
  , elec_emission := pyRound (elecGenTotal n * (24/1000))
  , operating_cost := pyRound (costsTotal n * (1/100)) }

/-- Claim-side total output of generators attached to gas-carrier buses,
read directly off the buses table. -/
def specGasOutput (n : SolvedNetwork) : ℚ :=
  ((n.buses.filter (fun b => decide (b.carrier = Carrier.gas))).map
    (fun b =>
      match b.generator with
      | some g => (n.gen_p g).sum
      | none => 0)).sum

/-- Claim-side total output of generators attached to elec-carrier buses. -/
def specElecOutput (n : SolvedNetwork) : ℚ :=
  ((n.buses.filter (fun b => decide (b.carrier = Carrier.elec))).map
    (fun b =>
      match b.generator with
      | some g => (n.gen_p g).sum
      | none => 0)).sum

/-- Claim-side sum over generators and snapshots of power times marginal
cost. -/
def specCostSum (n : SolvedNetwork) : ℚ :=
  (n.gen_cols.map (fun g =>
    (List.zipWith (fun a b => a * b) (n.gen_p g) ((n.gen_mc g).getD [])).sum)).sum

lemma sum_filterMap_generator (np : GenName → List ℚ) :
    ∀ (l : List ABus), (∀ b ∈ l, b.generator.isSome) →
      ((l.filterMap (fun b => b.generator)).map (fun g => (np g).sum)).sum
        = (l.map (fun b =>
            match b.generator with
            | some g => (np g).sum
            | none => 0)).sum := by
  intro l
  induction l with
  | nil => simp
  | cons b rest ih =>
    intro h
    have hb := h b (List.mem_cons_self b rest)
    cases hg : b.generator with
    | none => rw [hg] at hb; simp at hb
    | some g =>
      simp only [List.filterMap_cons, hg, List.map_cons, List.sum_cons]
      rw [ih (fun x hx => h x (List.mem_cons_of_mem b hx))]

lemma sum_filter_isSome (np : GenName → List ℚ) :
    ∀ (l : List ABus),
      (((l.filter (fun b => b.generator.isSome)).filterMap (fun b => b.generator)).map
          (fun g => (np g).sum)).sum
        = (l.map (fun b =>
            match b.generator with
            | some g => (np g).sum
            | none => 0)).sum := by
  intro l
  induction l with
  | nil => simp
  | cons b rest ih =>
    cases hg : b.generator with
    | none => simp [List.filter_cons, hg, ih]
    | some g => simp [List.filter_cons, hg, List.filterMap_cons, ih]

lemma sum_filterMap_mc (mcf : GenName → Option (List ℚ)) (pf : GenName → List ℚ) :
    ∀ l : List GenName, (∀ g ∈ l, (mcf g).isSome) →
      ((l.filterMap (fun g =>
          match mcf g with
          | some mc => some (g, List.zipWith (fun a b => a * b) (pf g) mc)
          | none => none)).map (fun p => p.2.sum)).sum
        = (l.map (fun g =>
            (List.zipWith (fun a b => a * b) (pf g) ((mcf g).getD [])).sum)).sum := by
  intro l
  induction l with
  | nil => simp
  | cons g rest ih =>
    intro h
    have hgm := h g (List.mem_cons_self g rest)
    cases hmc : mcf g with
    | none => rw [hmc] at hgm; simp at hgm
    | some mc =>
      simp only [List.filterMap_cons, hmc, List.map_cons, List.sum_cons, Option.getD_some]
      rw [ih (fun x hx => h x (List.mem_cons_of_mem g hx))]

lemma costsTotal_eq_specCostSum (n : SolvedNetwork)
    (h : ∀ g ∈ n.gen_cols, (n.gen_mc g).isSome) :
    costsTotal n = specCostSum n := by
  rw [costsTotal, specCostSum, costsCols]
  exact sum_filterMap_mc n.gen_mc n.gen_p n.gen_cols h

/-! ## Claim C8 -/

/-- C8: for a solved network whose gas-carrier buses all name a
generator and whose power columns all have marginal-cost columns,
`analyse` reports gas emissions as the rounded gas-bus generator output
times 0.184 kg/kWh, grid electricity emissions as the rounded elec-bus
generator output times 0.024 kg/kWh, and the grand total operating cost
as the rounded sum over generators and snapshots of power times marginal
cost scaled by 0.01, all in its result dictionary. -/
theorem analyse_summary_claim (n : SolvedNetwork)
    (hgas : ∀ b ∈ n.buses, b.carrier = Carrier.gas → b.generator.isSome)
    (hmc : ∀ g ∈ n.gen_cols, (n.gen_mc g).isSome) :
    (analyse n).gas_emission = pyRound (specGasOutput n * (184/1000))
      ∧ (analyse n).elec_emission = pyRound (specElecOutput n * (24/1000))
      ∧ (analyse n).operating_cost = pyRound (specCostSum n * (1/100)) := by
  have h1 : gasGenTotal n = specGasOutput n := by
    rw [gasGenTotal, gas_gen_index, specGasOutput]
    refine sum_filterMap_generator _ _ ?_
    intro b hb
    rw [List.mem_filter] at hb
    exact hgas b hb.1 (by simpa using hb.2)
  have h2 : elecGenTotal n = specElecOutput n := by
    rw [elecGenTotal, elec_gen_index, specElecOutput]
    exact sum_filter_isSome _ _
  have h3 := costsTotal_eq_specCostSum n hmc
  refine ⟨?_, ?_, ?_⟩
  · rw [analyse, h1]
  · rw [analyse, h2]
  · rw [analyse, h3]

/-- Concrete solved network for the C8 witness. -/
def nEx : SolvedNetwork :=
  { buses := [⟨Carrier.gas, some GenName.gasmarket_boiler⟩,
              ⟨Carrier.elec, some GenName.elecmarket⟩,
              ⟨Carrier.heat, none⟩]
  , gen_cols := [GenName.elecmarket, GenName.gasmarket_boiler]
  , gen_p := fun g =>
      match g with
      | GenName.elecmarket => [1, 2]
      | GenName.gasmarket_boiler => [3]
      | _ => []
  , gen_mc := fun g =>
      match g with
      | GenName.elecmarket => some [2, 2]
      | GenName.gasmarket_boiler => some [10]
      | _ => none }

theorem analyse_summary_claim_witness :
    (analyse nEx).gas_emission = pyRound (specGasOutput nEx * (184/1000))
      ∧ (analyse nEx).elec_emission = pyRound (specElecOutput nEx * (24/1000))
      ∧ (analyse nEx).operating_cost = pyRound (specCostSum nEx * (1/100)) :=
  analyse_summary_claim nEx
    (by
      intro b hb hc
      fin_cases hb <;> simp_all)
    (by
      intro g hg
      fin_cases hg <;> simp [nEx])

/-! ## Python call binding (scenario_1.py, scenario_2.py, scenario_3.py)

The scenario scripts are glue; what is verifiable about them at the
embedding level is whether their calls bind against the parameter lists
of the functions they invoke.  `bindOk params nPos kwargs` models CPython
argument binding for calls with `nPos` positional arguments and the
given keyword names: every keyword must name a parameter that is not
already bound positionally, and every parameter without a default must
be bound. -/

inductive PyIdent
  | snapshots
  | elec_cost_path
  | gas_cost_path
  | heat_demand_path
  | elec_demand_path
  | static_elec_cost
  | network
  | getter
  | dT
  | storage_e_nom
  | p_nom
  deriving DecidableEq

structure PyParam where
  name : PyIdent
  hasDefault : Bool
  deriving DecidableEq

def bindOk (params : List PyParam) (nPos : Nat) (kwargs : List PyIdent) : Bool :=
  decide (nPos ≤ params.length)
    && kwargs.all (fun k => (params.drop nPos).any (fun p => decide (p.name = k)))
    && (params.drop nPos).all
        (fun p => p.hasDefault || kwargs.any (fun k => decide (k = p.name)))

/-- Parameters of `DataGetter.__init__` (datagetter.py lines 34-40),
after `self`: all five are keyword arguments with defaults. -/
def dataGetterInitParams : List PyParam :=
  [⟨PyIdent.snapshots, true⟩, ⟨PyIdent.elec_cost_path, true⟩,
   ⟨PyIdent.gas_cost_path, true⟩, ⟨PyIdent.heat_demand_path, true⟩,
   ⟨PyIdent.elec_demand_path, true⟩]

/-- Parameters of `add_small_storage_and_heat_pump` (build_network.py line 178). -/
def addSmallStorageParams : List PyParam :=
  [⟨PyIdent.network, false⟩, ⟨PyIdent.getter, false⟩, ⟨PyIdent.dT, true⟩]

/-- Parameters of `add_seasonal_storage_and_heat_pump` (build_network.py line 221). -/
def addSeasonalStorageParams : List PyParam :=
  [⟨PyIdent.network, false⟩, ⟨PyIdent.getter, false⟩, ⟨PyIdent.dT, true⟩,
   ⟨PyIdent.storage_e_nom, true⟩]

/-- Parameters of `analyse` (analysis.py line 6): the network only. -/
def analyseParams : List PyParam := [⟨PyIdent.network, false⟩]

/-- Parameters of `add_chp` (build_network.py line 112). -/
def addChpParams : List PyParam := [⟨PyIdent.network, false⟩, ⟨PyIdent.getter, false⟩]

/-! ## Claim C7 -/

/-- C7: the scenario scripts cannot complete their pipelines.
`run_scenario_1` calls `DataGetter(snapshots=..., static_elec_cost=True)`
(scenario_1.py line 49) and `add_small_storage_and_heat_pump(network,
getter, p_nom=0)` (line 63), neither keyword being a parameter, and all
three scripts call `analyse(network, getter)` (scenario_1.py line 69,
scenario_2.py line 67, scenario_3.py line 73) although `analyse` takes a
single parameter — each binding fails, so the call raises a TypeError.
The remaining calls on the way there do bind. -/
theorem scenario_pipeline_calls :
    bindOk dataGetterInitParams 0 [PyIdent.snapshots, PyIdent.static_elec_cost] = false
      ∧ bindOk addSmallStorageParams 2 [PyIdent.p_nom] = false
      ∧ bindOk analyseParams 2 [] = false
      ∧ bindOk dataGetterInitParams 0 [PyIdent.snapshots] = true
      ∧ bindOk addChpParams 2 [] = true
      ∧ bindOk addSmallStorageParams 3 [] = true
      ∧ bindOk addSmallStorageParams 2 [PyIdent.dT] = true
      ∧ bindOk addSeasonalStorageParams 2 [PyIdent.storage_e_nom, PyIdent.dT] = true
      ∧ bindOk analyseParams 1 [] = true := by
  decide

/-! ## try_parsing_date (datagetter.py lines 14-25)

`datetime.datetime.strptime` is modelled for the directives the five
formats use (%Y %m %d %H %M %S, literals, whitespace): a directive
consumes greedily up to its digit budget and is range-checked, the whole
input must be consumed, and the resulting fields must form a valid
datetime (this is the ValueError raised either by the regex match or by
the datetime constructor; both are caught by the loop). -/

structure PyDateTime where
  year : Nat
  month : Nat
  day : Nat
  hour : Nat
  minute : Nat
  second : Nat
  deriving DecidableEq

inductive FTok
  | lit (c : Char)
  | ws
  | dY
  | dm
  | dd
  | dH
  | dM
  | dS
  deriving DecidableEq

/-- Tokenise a strptime format string. -/
def fmtToks : List Char → List FTok
  | [] => []
  | '%' :: c :: rest =>
    (if c = 'Y' then FTok.dY
     else if c = 'm' then FTok.dm
     else if c = 'd' then FTok.dd
     else if c = 'H' then FTok.dH
     else if c = 'M' then FTok.dM
     else if c = 'S' then FTok.dS
     else FTok.lit c) :: fmtToks rest
  | c :: rest => (if c = ' ' then FTok.ws else FTok.lit c) :: fmtToks rest

def digitVal (c : Char) : Option Nat :=
  if '0' ≤ c ∧ c ≤ '9' then some (c.toNat - '0'.toNat) else none

/-- Greedily consume up to `n` digits; returns (value, digits consumed,
rest of the input). -/
def takeDigits : Nat → List Char → Nat × Nat × List Char
  | 0, cs => (0, 0, cs)
  | n + 1, cs =>
    match cs with
    | [] => (0, 0, [])
    | c :: rest =>
      match digitVal c with
      | none => (0, 0, c :: rest)
      | some d =>
        let r := takeDigits n rest
        (d * 10 ^ r.2.1 + r.1, r.2.1 + 1, r.2.2)

/-- Partially filled datetime fields with CPython's strptime defaults. -/
structure DFields where
  y : Nat
  mo : Nat
  d : Nat
  h : Nat
  mi : Nat
  s : Nat
  deriving DecidableEq

def defaultFields : DFields := ⟨1900, 1, 1, 0, 0, 0⟩

/-- Run a token list against the input; the whole input must be
consumed (otherwise CPython raises `unconverted data remains`). -/
def runToks : List FTok → List Char → DFields → Option DFields
  | [], [], f => some f
  | [], _ :: _, _ => none
  | FTok.lit c :: toks, cs, f =>
    match cs with
    | c2 :: rest => if c2 = c then runToks toks rest f else none
    | [] => none
  | FTok.ws :: toks, cs, f =>
    match cs with
    | c2 :: rest =>
      if c2.isWhitespace then runToks toks (rest.dropWhile Char.isWhitespace) f
      else none
    | [] => none
  | FTok.dY :: toks, cs, f =>
    let r := takeDigits 4 cs
    if r.2.1 = 4 then runToks toks r.2.2 { f with y := r.1 } else none
  | FTok.dm :: toks, cs, f =>
    let r := takeDigits 2 cs
    if 1 ≤ r.2.1 ∧ 1 ≤ r.1 ∧ r.1 ≤ 12 then runToks toks r.2.2 { f with mo := r.1 }
    else none
  | FTok.dd :: toks, cs, f =>
    let r := takeDigits 2 cs
    if 1 ≤ r.2.1 ∧ 1 ≤ r.1 ∧ r.1 ≤ 31 then runToks toks r.2.2 { f with d := r.1 }
    else none
  | FTok.dH :: toks, cs, f =>
    let r := takeDigits 2 cs
    if 1 ≤ r.2.1 ∧ r.1 ≤ 23 then runToks toks r.2.2 { f with h := r.1 } else none
  | FTok.dM :: toks, cs, f =>
    let r := takeDigits 2 cs
    if 1 ≤ r.2.1 ∧ r.1 ≤ 59 then runToks toks r.2.2 { f with mi := r.1 } else none
  | FTok.dS :: toks, cs, f =>
    let r := takeDigits 2 cs
    if 1 ≤ r.2.1 ∧ r.1 ≤ 61 then runToks toks r.2.2 { f with s := r.1 } else none

def isLeap (y : Nat) : Bool :=
  (y % 4 = 0 && y % 100 ≠ 0) || y % 400 = 0

def daysInMonth (y m : Nat) : Nat :=
  if m = 2 then (if isLeap y then 29 else 28)
  else if m = 4 ∨ m = 6 ∨ m = 9 ∨ m = 11 then 30
  else 31

/-- The `datetime.datetime` constructor's validation. -/
def mkDatetime (f : DFields) : Option PyDateTime :=
  if 1 ≤ f.y ∧ f.y ≤ 9999 ∧ f.d ≤ daysInMonth f.y f.mo ∧ f.s ≤ 59
  then some ⟨f.y, f.mo, f.d, f.h, f.mi, f.s⟩
  else none

/-- `datetime.datetime.strptime(text, fmt)`, `none` for a ValueError. -/
def strptime (text fmt : String) : Option PyDateTime :=
  match runToks (fmtToks fmt.toList) text.toList defaultFields with
  | some f => mkDatetime f
  | none => none

def fmtA : String := "%Y-%m-%d %H:%M"

def fmtB : String := "%Y-%m-%d %H:%M:%S"

def fmtC : String := "%d/%m/%Y %H:%M"

def fmtD : String := " %Y-%m-%d %H:%M:%S"

def fmtE : String := "%d/%m/%Y"

/-- The five formats tried by `try_parsing_date`, in source order
(datagetter.py line 20). -/
def date_formats : List String := [fmtA, fmtB, fmtC, fmtD, fmtE]

def noValidMsg : String := "No valid date format found."

/-- The format loop: first successful parse wins. -/
def tryFormats : List String → String → Option PyDateTime
  | [], _ => none
  | f :: rest, text =>
    match strptime text f with
    | some d => some d
    | none => tryFormats rest text

/-- `try_parsing_date` (datagetter.py lines 14-25): the caught ValueError
of each failed format is modelled by `none`, the final raise by the
error value. -/
def try_parsing_date (text : String) : Except String PyDateTime :=
  match tryFormats date_formats text with
  | some d => Except.ok d
  | none => Except.error noValidMsg

lemma tryFormats_eq_none_iff (t : String) :
    ∀ l : List String, tryFormats l t = none ↔ ∀ f ∈ l, strptime t f = none := by
  intro l
  induction l with
  | nil => simp [tryFormats]
  | cons f rest ih =>
    rw [tryFormats]
    cases h : strptime t f with
    | some d =>
      simp only [List.mem_cons]
      constructor
      · intro he
        exact absurd he (by simp)
      · intro hall
        exact absurd (hall f (Or.inl rfl)) (by simp [h])
    | none =>
      rw [ih]
      constructor
      · intro hall f2 hf2
        rcases List.mem_cons.mp hf2 with h1 | h1
        · rw [h1]; exact h
        · exact hall f2 h1
      · intro hall f2 hf2
        exact hall f2 (List.mem_cons_of_mem f hf2)

lemma tryFormats_eq_some_iff (t : String) (d : PyDateTime) :
    ∀ l : List String, tryFormats l t = some d ↔
      ∃ i, i < l.length ∧ strptime t (l.getD i fmtA) = some d
        ∧ ∀ j, j < i → strptime t (l.getD j fmtA) = none := by
  intro l
  induction l with
  | nil =>
    simp [tryFormats]
  | cons f rest ih =>
    rw [tryFormats]
    cases h : strptime t f with
    | some e =>
      constructor
      · intro he
        refine ⟨0, by simp, ?_, by omega⟩
        rw [List.getD_cons_zero, h]
        exact he
      · rintro ⟨i, hi, hit, hbefore⟩
        cases i with
        | zero =>
          rw [List.getD_cons_zero, h] at hit
          exact hit
        | succ n =>
          have h0 := hbefore 0 (Nat.succ_pos n)
          rw [List.getD_cons_zero, h] at h0
          exact absurd h0 (by simp)
    | none =>
      rw [ih]
      constructor
      · rintro ⟨i, hi, hit, hb⟩
        refine ⟨i + 1, by simpa using hi, by simpa using hit, ?_⟩
        intro j hj
        cases j with
        | zero => rw [List.getD_cons_zero]; exact h
        | succ k =>
          rw [List.getD_cons_succ]
          exact hb k (by omega)
      · rintro ⟨i, hi, hit, hb⟩
        cases i with
        | zero =>
          rw [List.getD_cons_zero, h] at hit
          exact absurd hit (by simp)
        | succ n =>
          refine ⟨n, by simpa using hi, by simpa using hit, ?_⟩
          intro j hj
          have := hb (j + 1) (by omega)
          rw [List.getD_cons_succ] at this
          exact this

/-! ## Claim C9 -/

/-- C9: `try_parsing_date` tries the five formats in source order and
returns the datetime of the first format that parses the input; it
raises `ValueError("No valid date format found.")` if and only if none
of the five formats parses it. -/
theorem try_parsing_date_claim (text : String) :
    (try_parsing_date text = Except.error noValidMsg ↔
        ∀ f ∈ date_formats, strptime text f = none)
      ∧ ∀ d, (try_parsing_date text = Except.ok d ↔
          ∃ i, i < date_formats.length ∧ strptime text (date_formats.getD i fmtA) = some d
            ∧ ∀ j, j < i → strptime text (date_formats.getD j fmtA) = none) := by
  rw [try_parsing_date]
  cases h : tryFormats date_formats text with
  | some d0 =>
    constructor
    · constructor
      · intro he
        exact absurd he (by simp)
      · intro hall
        rw [(tryFormats_eq_none_iff text date_formats).mpr hall] at h
        exact absurd h (by simp)
    · intro d
      rw [← tryFormats_eq_some_iff text d date_formats, h]
      constructor
      · intro he
        rw [Except.ok.injEq] at he
        rw [he]
      · intro he
        rw [Option.some.injEq] at he
        rw [he]
  | none =>
    constructor
    · simp only [true_iff]
      exact (tryFormats_eq_none_iff text date_formats).mp h
    · intro d
      rw [← tryFormats_eq_some_iff text d date_formats, h]
      constructor
      · intro he
        exact absurd he (by simp)
      · intro he
        exact absurd he (by simp)

/-- C9 witness input and result: the first format already parses it. -/
def textEx : String := "2019-01-02 03:04"

theorem try_parsing_date_claim_witness :
    try_parsing_date textEx = Except.ok ⟨2019, 1, 2, 3, 4, 0⟩ :=
  ((try_parsing_date_claim textEx).2 ⟨2019, 1, 2, 3, 4, 0⟩).mpr
    ⟨0, by decide, by decide, by omega⟩

end EasterBush
